import Mathlib

/-!
Shallow embedding of the Live Signal Stream Client (`LiveStreamingPage`,
`src/unnamed/part_002`), the global WebSocket-constructor override
(`src/unnamed/part_000`), and the feature-gating utility
(`src/src/lib/subscriptionUtils.ts`).

The page is a React component. Its event handlers (`onopen`, `onmessage`,
`onclose`, `onerror`) and the reconnect `setTimeout` callback are closures
created inside `connectWebSocket`, which is itself re-created on every render
but only re-invoked from the `useEffect` with dependency `[isStreaming]`
(part_002 lines 71-81) or, recursively, from the reconnect timer callback
(lines 125-128). Consequently all handlers of one reconnect chain read the
values of `isStreaming` and `connectionAttempts` that were current at the
render whose effect started the chain; we package those captured values as a
`RenderEnv` and attach it to each socket and each scheduled timer. The state
cells themselves (`useState`) are updated through functional setters
(`setConnectionAttempts (prev => prev + 1)`, `setLiveSignals (prev => ...)`),
which always act on the current cell value; reads inside handlers, however,
see only the captured `RenderEnv`. This distinction is exactly what the
theorems below exercise.

Timers: the delay passed to each reconnect `setTimeout` call is recorded in
the ghost field `scheduledDelays` (append-only log), and the pending callback
itself in `pendingTimers`; the source never stores or clears the timeout
handle, so nothing ever removes a pending timer except its own firing.

Toasts: each `toast(...)` call site is abstracted as one `Notification`
constructor appended to the `toasts` log, the single user-facing
notification channel of the page.
-/

set_option autoImplicit false

namespace BitcoinFrontend

/-- The `buy | sell` string union used by `LiveSignal.signalType`
(part_002 line 46). -/
inductive Direction
  | buy
  | sell
deriving DecidableEq

/-- The `LiveSignal` interface, part_002 lines 43-51. JS numbers carry the
price; no claim computes with it, and we embed it as a rational. -/
structure LiveSignal where
  id : String
  symbol : String
  signalType : Direction
  price : ℚ
  timestamp : String
  source : String
  note : Option String
deriving DecidableEq

/-- One `toast(...)` call site of `LiveStreamingPage`, abstracted as a
notification value:
`connected` (line 93), `newSignal` (line 108), `connectionError` (line 134),
`connectionFailed` (line 142, the `connectWebSocket` catch block),
`testSignalSent` (line 172) and `testSignalError` (line 177). -/
inductive Notification
  | connected
  | newSignal (symbol : String) (dir : Direction) (price : ℚ)
  | connectionError
  | connectionFailed
  | testSignalSent
  | testSignalError
deriving DecidableEq

/-- The render-time values of `isStreaming` and `connectionAttempts`
captured by the closures that `connectWebSocket` creates. React re-creates
these closures only when the `[isStreaming]` effect re-runs; the reconnect
timer re-invokes the same captured `connectWebSocket`, so every handler of
one reconnect chain shares one `RenderEnv`. -/
structure RenderEnv where
  isStreaming : Bool
  connectionAttempts : Nat
deriving DecidableEq

/-- The component state: the four `useState` cells of part_002 lines 54-57
(`isConnected`, `isStreaming`, `liveSignals`, `connectionAttempts`), the
socket reference `wsRef` (modelled by the `RenderEnv` its handlers captured),
and ghost logs for pending reconnect timers, the delays passed to
`setTimeout`, and the toasts shown. -/
structure ClientState where
  isConnected : Bool
  isStreaming : Bool
  connectionAttempts : Nat
  liveSignals : List LiveSignal
  socketEnv : Option RenderEnv
  pendingTimers : List (Nat × RenderEnv)
  scheduledDelays : List Nat
  toasts : List Notification
deriving DecidableEq

/-- Initial state of the component: `useState(false)`, `useState(false)`,
`useState([])`, `useState(0)`, `wsRef = null`, nothing scheduled. -/
def initialState : ClientState :=
  { isConnected := false
    isStreaming := false
    connectionAttempts := 0
    liveSignals := []
    socketEnv := none
    pendingTimers := []
    scheduledDelays := []
    toasts := [] }

/-- The Signal Buffer push, part_002 line 106:
`setLiveSignals(prev => [signal, ...prev.slice(0, 49)])`.
JS `slice(0, 49)` keeps the first 49 elements. -/
def pushSignal (sig : LiveSignal) (prev : List LiveSignal) : List LiveSignal :=
  sig :: prev.take 49

/-- The `onopen` handler, part_002 lines 90-97: `setIsConnected(true)`,
`setConnectionAttempts(0)`, and a Connected toast. -/
def onopen (s : ClientState) : ClientState :=
  { s with
    isConnected := true
    connectionAttempts := 0
    toasts := s.toasts ++ [Notification.connected] }

/-- The parse outcome of one inbound frame (`event.data` fed to
`JSON.parse` and dispatched on the `type` tag, part_002 lines 100-115):
either the parse throws (`malformed`), or it yielded an object whose tag is
`"signal"`, `"connection"`, or anything else. -/
inductive WireMsg
  | malformed
  | signalMsg (sig : LiveSignal)
  | connectionMsg (m : String)
  | otherTag (tag : String)
deriving DecidableEq

/-- The toast emitted for a signal frame, part_002 lines 108-112. -/
def signalToast (sig : LiveSignal) : Notification :=
  Notification.newSignal sig.symbol sig.signalType sig.price

/-- The `onmessage` handler, part_002 lines 99-119. A `"signal"` frame is
pushed into the buffer and announced by a toast; a `"connection"` frame is
only logged; any other tag falls through both branches; a parse failure is
caught by the surrounding `try/catch` and only logged. The handler is total:
no outcome escapes it. -/
def onmessage (m : WireMsg) (s : ClientState) : ClientState :=
  match m with
  | WireMsg.signalMsg sig =>
      { s with
        liveSignals := pushSignal sig s.liveSignals
        toasts := s.toasts ++ [signalToast sig] }
  | WireMsg.connectionMsg _ => s
  | WireMsg.otherTag _ => s
  | WireMsg.malformed => s

/-- The `onclose` handler, part_002 lines 121-130: `setIsConnected(false)`;
then, reading the captured `isStreaming` and `connectionAttempts` from `env`,
if `isStreaming && connectionAttempts < 5` it schedules a reconnect timer
with delay `Math.pow(2, connectionAttempts) * 1000` milliseconds. The timer
callback keeps the same `env` (it calls the captured `connectWebSocket`). -/
def onclose (env : RenderEnv) (s : ClientState) : ClientState :=
  let s1 := { s with isConnected := false }
  if env.isStreaming && env.connectionAttempts < 5 then
    { s1 with
      pendingTimers := s1.pendingTimers ++ [(2 ^ env.connectionAttempts * 1000, env)]
      scheduledDelays := s1.scheduledDelays ++ [2 ^ env.connectionAttempts * 1000] }
  else s1

/-- The `onerror` handler, part_002 lines 132-139: logs and shows a
Connection Error toast; no state transition. -/
def onerror (s : ClientState) : ClientState :=
  { s with toasts := s.toasts ++ [Notification.connectionError] }

/-- `connectWebSocket`, part_002 lines 83-148, as seen by the state machine:
the `new WebSocket(wsUrl)` construction is fallible (`ctor`); on success the
socket (with handlers closing over `env`) is stored in `wsRef`; on a thrown
construction error the surrounding `catch` swallows it, logs, and shows the
Connection Failed toast. The function is total: no exception propagates to
the caller. -/
def connectWebSocket (env : RenderEnv) (ctor : Except String Unit)
    (s : ClientState) : ClientState :=
  match ctor with
  | Except.ok _ => { s with socketEnv := some env }
  | Except.error _ => { s with toasts := s.toasts ++ [Notification.connectionFailed] }

/-- The reconnect `setTimeout` callback, part_002 lines 125-128, firing the
earliest pending timer: `setConnectionAttempts(prev => prev + 1)` (a
functional update of the actual cell) followed by a call of the captured
`connectWebSocket` closure, i.e. with the `env` stored for the timer. -/
def fireFirstTimer (ctor : Except String Unit) (s : ClientState) : ClientState :=
  match s.pendingTimers with
  | [] => s
  | (_, env) :: rest =>
      connectWebSocket env ctor
        { s with
          pendingTimers := rest
          connectionAttempts := s.connectionAttempts + 1 }

/-- `disconnectWebSocket`, part_002 lines 150-156: close the socket if the
reference is set, clear the reference, `setIsConnected(false)`. No timeout
handle is ever stored by the source, so nothing here (or anywhere else)
cancels a pending reconnect timer. -/
def disconnectWebSocket (s : ClientState) : ClientState :=
  { s with socketEnv := none, isConnected := false }

/-- The `[isStreaming]` effect, part_002 lines 71-81, run after
`setIsStreaming b`: the previous effect cleanup disconnects, then the new
effect connects (capturing the current render values into the handlers) when
`b` is true and disconnects otherwise. -/
def setStreaming (b : Bool) (ctor : Except String Unit) (s : ClientState) :
    ClientState :=
  let s1 := disconnectWebSocket { s with isStreaming := b }
  if b then
    connectWebSocket
      { isStreaming := true, connectionAttempts := s1.connectionAttempts } ctor s1
  else s1

/-- The body of the one-shot POST issued by `sendTestSignal`,
part_002 lines 164-170. -/
structure TestSignalRequest where
  symbol : String
  signalType : Direction
deriving DecidableEq

/-- `sendTestSignal`, part_002 lines 162-183. It takes no arguments in the
source; the direction is always drawn from `Math.random() > 0.5` (the draw
outcome is the `randGtHalf` input) and the symbol is fixed. Exactly one POST
is issued; success or failure of the request is surfaced only as a toast. -/
def sendTestSignal (randGtHalf : Bool) (requestFails : Bool)
    (s : ClientState) : List TestSignalRequest × ClientState :=
  let req : TestSignalRequest :=
    { symbol := "BTCUSDT"
      signalType := if randGtHalf then Direction.buy else Direction.sell }
  ([req],
   { s with
     toasts := s.toasts ++
       [if requestFails then Notification.testSignalError
        else Notification.testSignalSent] })

/-- The events the hosting environment can deliver to the component: the
stream toggle flipping on or off, socket lifecycle callbacks (which exist
only while a socket is referenced), an inbound frame, and the firing of the
earliest pending reconnect timer. Socket constructions along a run succeed
(`Except.ok`); construction failure is analysed separately. -/
inductive Ev
  | streamOn
  | streamOff
  | openEv
  | closeEv
  | errorEv
  | msg (m : WireMsg)
  | timerFire
deriving DecidableEq

/-- One event step of the component. -/
def step (s : ClientState) (e : Ev) : ClientState :=
  match e with
  | Ev.streamOn => setStreaming true (Except.ok ()) s
  | Ev.streamOff => setStreaming false (Except.ok ()) s
  | Ev.openEv => match s.socketEnv with | none => s | some _ => onopen s
  | Ev.closeEv => match s.socketEnv with | none => s | some env => onclose env s
  | Ev.errorEv => match s.socketEnv with | none => s | some _ => onerror s
  | Ev.msg m => match s.socketEnv with | none => s | some _ => onmessage m s
  | Ev.timerFire => fireFirstTimer (Except.ok ()) s

/-- A run of the component from a state through a list of events. -/
def run (s : ClientState) (es : List Ev) : ClientState :=
  es.foldl step s

/-- Folding a list of signal pushes into an empty buffer, newest first. -/
def pushAll (sigs : List LiveSignal) : List LiveSignal :=
  sigs.foldl (fun b sig => pushSignal sig b) []

/-- The concrete signal of the spec scenario, id `toString i`. -/
def mkSig (i : Nat) : LiveSignal :=
  { id := toString i
    symbol := "BTCUSDT"
    signalType := Direction.buy
    price := 50000
    timestamp := "2025-01-01T00:00:00Z"
    source := "test"
    note := none }

/-- The buffer after pushing, in order, the 51 distinct signals whose ids
are the decimal strings of 1 through 51. -/
def scenario51 : List LiveSignal :=
  pushAll ((List.range 51).map (fun i => mkSig (i + 1)))

/-- The outcome of the overridden `window.WebSocket` constructor,
part_000 lines 14-32: a real socket for a valid URL, otherwise a mock object
with `readyState = CLOSED` and inert methods — never a thrown error. -/
inductive CtorOutcome
  | realSocket
  | mockClosed
deriving DecidableEq

/-- The `window.WebSocket` override of part_000 lines 14-32: validate the
URL first; on failure return the mock instead of letting the construction
throw. Total by construction. -/
def overriddenWebSocketCtor (urlValid : Bool) : CtorOutcome :=
  if urlValid then CtorOutcome.realSocket else CtorOutcome.mockClosed

/-! ### Status poller (`useQuery` of part_002 lines 62-68) -/

/-- The `StreamingStatus` interface, part_002 lines 24-41 (the `memory: any`
field is kept as its `heapUsed` byte count, the only part the page reads). -/
structure StreamingStatus where
  websocketConnected : Nat
  websocketStatusActive : Bool
  tickersEnabled : Nat
  tickersSymbols : List String
  signalsRecent : Nat
  signalsLastSignal : Option String
  serverUptime : Nat
  serverMemoryHeapUsed : Nat
deriving DecidableEq

/-- The property access `data?.isActivelyStreaming` in the
`refetchInterval` callback (part_002 line 65): the `StreamingStatus`
interface declares no `isActivelyStreaming` field, so on data of the
declared shape the access yields `undefined`, which is falsy. -/
def isActivelyStreamingProp (_ : StreamingStatus) : Bool := false

/-- The `refetchInterval` callback of the status query, part_002 line 65:
`(data) => (data?.isActivelyStreaming || isStreaming) ? 30000 : false`.
`some i` stands for the millisecond interval `i`, `none` for `false`
(no polling timer armed). -/
def refetchIntervalFn (isStreaming : Bool) (data : Option StreamingStatus) :
    Option Nat :=
  if data.elim false isActivelyStreamingProp || isStreaming then some 30000
  else none

/-- Modelled from the spec and from the documented defaults of react-query
(the
query runtime is library code, not part of this repository): a mounted
`useQuery` with `enabled` left at its default `true` issues one fetch
immediately at mount (time 0); while `refetchInterval` evaluates to
`some i`, a further fetch fires every `i` milliseconds; `none` arms no
timer. `pollFetchTimes isStreaming k` lists the times (ms since mount) of
the first fetches, up to `k` interval ticks. -/
def pollFetchTimes (isStreaming : Bool) (k : Nat) : List Nat :=
  match refetchIntervalFn isStreaming none with
  | some i => (List.range (k + 1)).map (fun j => j * i)
  | none => [0]

/-! ### Feature gating (`src/src/lib/subscriptionUtils.ts`) -/

/-- The `FeatureAccess` interface, subscriptionUtils.ts lines 13-54. The two
limits are JS numbers that the source sets to `0` or `-1`, hence `Int`. -/
structure FeatureAccess where
  basicSignals : Bool
  premiumSignals : Bool
  realTimeAlerts : Bool
  trading_dashboard : Bool
  basicCharts : Bool
  advancedCharts : Bool
  heatmapAnalysis : Bool
  cycleForecasting : Bool
  tradingPlayground : Bool
  emailAlerts : Bool
  smsAlerts : Bool
  telegramAlerts : Bool
  pushNotifications : Bool
  advancedAlerts : Bool
  multiChannelAlerts : Bool
  maxTickers : Int
  maxSignalsPerMonth : Int
  advancedAnalytics : Bool
  historicalData : Bool
  liveStreaming : Bool
  adminAccess : Bool
  apiAccess : Bool
  prioritySupport : Bool
  customIndicators : Bool
  whiteLabel : Bool
deriving DecidableEq

/-- `SUBSCRIPTION_FEATURES.none`, subscriptionUtils.ts lines 58-99. -/
def noneAccess : FeatureAccess :=
  { basicSignals := false
    premiumSignals := false
    realTimeAlerts := false
    trading_dashboard := false
    basicCharts := false
    advancedCharts := false
    heatmapAnalysis := false
    cycleForecasting := false
    tradingPlayground := false
    emailAlerts := false
    smsAlerts := false
    telegramAlerts := false
    pushNotifications := false
    advancedAlerts := false
    multiChannelAlerts := false
    maxTickers := 0
    maxSignalsPerMonth := 0
    advancedAnalytics := false
    historicalData := false
    liveStreaming := false
    adminAccess := false
    apiAccess := false
    prioritySupport := false
    customIndicators := false
    whiteLabel := false }

/-- `SUBSCRIPTION_FEATURES.pro`, subscriptionUtils.ts lines 102-143. -/
def proAccess : FeatureAccess :=
  { basicSignals := true
    premiumSignals := true
    realTimeAlerts := true
    trading_dashboard := true
    basicCharts := true
    advancedCharts := true
    heatmapAnalysis := true
    cycleForecasting := true
    tradingPlayground := true
    emailAlerts := true
    smsAlerts := true
    telegramAlerts := true
    pushNotifications := true
    advancedAlerts := true
    multiChannelAlerts := true
    maxTickers := -1
    maxSignalsPerMonth := -1
    advancedAnalytics := true
    historicalData := true
    liveStreaming := true
    adminAccess := false
    apiAccess := true
    prioritySupport := true
    customIndicators := true
    whiteLabel := false }

/-- `SUBSCRIPTION_FEATURES.elite`, subscriptionUtils.ts lines 146-187. -/
def eliteAccess : FeatureAccess :=
  { basicSignals := true
    premiumSignals := true
    realTimeAlerts := true
    trading_dashboard := true
    basicCharts := true
    advancedCharts := true
    heatmapAnalysis := true
    cycleForecasting := true
    tradingPlayground := true
    emailAlerts := true
    smsAlerts := true
    telegramAlerts := true
    pushNotifications := true
    advancedAlerts := true
    multiChannelAlerts := true
    maxTickers := -1
    maxSignalsPerMonth := -1
    advancedAnalytics := true
    historicalData := true
    liveStreaming := true
    adminAccess := false
    apiAccess := true
    prioritySupport := true
    customIndicators := true
    whiteLabel := true }

/-- `getFeatureAccess`, subscriptionUtils.ts lines 190-199. A `null` tier is
`none : Option String`. -/
def getFeatureAccess (subscriptionTier : Option String) : FeatureAccess :=
  if subscriptionTier = some ("elite") then eliteAccess
  else if subscriptionTier = some ("pro") then proAccess
  else noneAccess

/-- The keys of `FeatureAccess` (`keyof FeatureAccess` in
`hasAccess`, subscriptionUtils.ts line 203). -/
inductive Feature
  | basicSignals
  | premiumSignals
  | realTimeAlerts
  | trading_dashboard
  | basicCharts
  | advancedCharts
  | heatmapAnalysis
  | cycleForecasting
  | tradingPlayground
  | emailAlerts
  | smsAlerts
  | telegramAlerts
  | pushNotifications
  | advancedAlerts
  | multiChannelAlerts
  | maxTickers
  | maxSignalsPerMonth
  | advancedAnalytics
  | historicalData
  | liveStreaming
  | adminAccess
  | apiAccess
  | prioritySupport
  | customIndicators
  | whiteLabel
deriving DecidableEq

/-- `Boolean(access[requiredFeature])` (subscriptionUtils.ts line 207):
JS `Boolean` of a boolean field is the field itself, and of a number field
is `true` exactly when the number is nonzero. -/
def featureTruthy (a : FeatureAccess) : Feature → Bool
  | Feature.basicSignals => a.basicSignals
  | Feature.premiumSignals => a.premiumSignals
  | Feature.realTimeAlerts => a.realTimeAlerts
  | Feature.trading_dashboard => a.trading_dashboard
  | Feature.basicCharts => a.basicCharts
  | Feature.advancedCharts => a.advancedCharts
  | Feature.heatmapAnalysis => a.heatmapAnalysis
  | Feature.cycleForecasting => a.cycleForecasting
  | Feature.tradingPlayground => a.tradingPlayground
  | Feature.emailAlerts => a.emailAlerts
  | Feature.smsAlerts => a.smsAlerts
  | Feature.telegramAlerts => a.telegramAlerts
  | Feature.pushNotifications => a.pushNotifications
  | Feature.advancedAlerts => a.advancedAlerts
  | Feature.multiChannelAlerts => a.multiChannelAlerts
  | Feature.maxTickers => decide (a.maxTickers ≠ 0)
  | Feature.maxSignalsPerMonth => decide (a.maxSignalsPerMonth ≠ 0)
  | Feature.advancedAnalytics => a.advancedAnalytics
  | Feature.historicalData => a.historicalData
  | Feature.liveStreaming => a.liveStreaming
  | Feature.adminAccess => a.adminAccess
  | Feature.apiAccess => a.apiAccess
  | Feature.prioritySupport => a.prioritySupport
  | Feature.customIndicators => a.customIndicators
  | Feature.whiteLabel => a.whiteLabel

/-- `hasAccess`, subscriptionUtils.ts lines 201-213. -/
def hasAccess (userTier : Option String) (requiredFeature : Feature) : Bool :=
  featureTruthy (getFeatureAccess userTier) requiredFeature

/-! ### Event runs exercised by the reconnect claims -/

/-- Six consecutive socket closes after the stream is enabled at attempt
count 0: each close schedules a reconnect, the timer fires (incrementing the
actual attempt-count cell and re-creating the socket through the captured
closure), and the new socket closes again without ever opening. -/
def sixCloseRun : List Ev :=
  [Ev.streamOn, Ev.closeEv, Ev.timerFire, Ev.closeEv, Ev.timerFire, Ev.closeEv,
   Ev.timerFire, Ev.closeEv, Ev.timerFire, Ev.closeEv, Ev.timerFire, Ev.closeEv]

/-- Three failed connection rounds (attempt-count cell reaches 3), the user
toggles streaming off and back on (the re-run effect captures the current
cell value 3 into the new closure chain), the socket then opens successfully
(resetting the cell to 0) and subsequently closes. -/
def retryResetRun : List Ev :=
  [Ev.streamOn, Ev.closeEv, Ev.timerFire, Ev.closeEv, Ev.timerFire, Ev.closeEv,
   Ev.timerFire, Ev.streamOff, Ev.streamOn, Ev.openEv, Ev.closeEv]

/-! ### Helper lemmas -/

/-- One buffer push never exceeds 50 elements. -/
theorem pushSignal_length_le (sig : LiveSignal) (prev : List LiveSignal) :
    (pushSignal sig prev).length ≤ 50 := by
  simp only [pushSignal, List.length_cons, List.length_take]
  omega

/-- Folding pushes over any start buffer of at most 50 elements keeps the
buffer at no more than 50 elements. -/
theorem foldl_pushSignal_length_le (sigs : List LiveSignal) :
    ∀ prev : List LiveSignal, prev.length ≤ 50 →
      (sigs.foldl (fun b sig => pushSignal sig b) prev).length ≤ 50 := by
  induction sigs with
  | nil => intro prev h; simpa using h
  | cons sig rest ih =>
      intro prev _
      simpa using ih (pushSignal sig prev) (pushSignal_length_le sig prev)

/-- Every component step keeps the Signal Buffer at no more than 50
elements. -/
theorem step_liveSignals_le (s : ClientState) (e : Ev)
    (h : s.liveSignals.length ≤ 50) : (step s e).liveSignals.length ≤ 50 := by
  cases e with
  | streamOn =>
      simpa [step, setStreaming, connectWebSocket, disconnectWebSocket] using h
  | streamOff =>
      simpa [step, setStreaming, disconnectWebSocket] using h
  | openEv =>
      cases hs : s.socketEnv <;> simpa [step, hs, onopen] using h
  | closeEv =>
      cases hs : s.socketEnv with
      | none => simpa [step, hs] using h
      | some env =>
          simp only [step, hs, onclose]
          split <;> simpa using h
  | errorEv =>
      cases hs : s.socketEnv <;> simpa [step, hs, onerror] using h
  | msg m =>
      cases hs : s.socketEnv with
      | none => simpa [step, hs] using h
      | some env =>
          cases m with
          | signalMsg sig =>
              simpa [step, hs, onmessage] using
                pushSignal_length_le sig s.liveSignals
          | connectionMsg mm => simpa [step, hs, onmessage] using h
          | otherTag t => simpa [step, hs, onmessage] using h
          | malformed => simpa [step, hs, onmessage] using h
  | timerFire =>
      cases ht : s.pendingTimers with
      | nil => simpa [step, fireFirstTimer, ht] using h
      | cons p rest =>
          obtain ⟨d, env⟩ := p
          simpa [step, fireFirstTimer, ht, connectWebSocket] using h

/-- Every run keeps the Signal Buffer at no more than 50 elements. -/
theorem run_liveSignals_le (es : List Ev) :
    ∀ s : ClientState, s.liveSignals.length ≤ 50 →
      (run s es).liveSignals.length ≤ 50 := by
  induction es with
  | nil => intro s h; simpa [run] using h
  | cons e rest ih =>
      intro s h
      simpa [run] using ih (step s e) (step_liveSignals_le s e h)

/-! ### Claims -/

/-- Claim C1: for every sequence of pushes the Signal Buffer holds at most
50 elements (also along every event run of the component from its initial
state), the element at index 0 is always the most recently pushed signal,
and after pushing 51 distinct signals the buffer holds exactly 50 elements,
the 51st signal sits at index 0, and the first-pushed signal (id 1) has
been evicted. -/
theorem C1_buffer_bound (sigs : List LiveSignal) (sig : LiveSignal)
    (es : List Ev) :
    (pushAll sigs).length ≤ 50 ∧
    (pushSignal sig (pushAll sigs)).head? = some sig ∧
    (run initialState es).liveSignals.length ≤ 50 ∧
    scenario51.length = 50 ∧
    scenario51.head?.map LiveSignal.id = some (toString 51) ∧
    scenario51.all (fun x => x.id != toString 1) = true := by
  refine ⟨foldl_pushSignal_length_le sigs [] (by simp), rfl,
    run_liveSignals_le es initialState (by simp [initialState]),
    by decide, by decide, by decide⟩

/-- Claim C2 evaluated on the source: in a run with six consecutive closes
and no successful open after the stream is enabled at attempt count 0, the
close handler reads the captured render value of `connectionAttempts`
(always 0 here, while the actual cell reaches 5), so all six reconnects are
scheduled with delay 2^0 * 1000 ms = 1000 ms — the second attempt is
scheduled after 1 s rather than the claimed 2^1 = 2 s, and a sixth attempt
is scheduled where the claim says none ever is. -/
theorem C2_backoff_stale_closure :
    (run initialState sixCloseRun).scheduledDelays =
      [1000, 1000, 1000, 1000, 1000, 1000] ∧
    (run initialState sixCloseRun).connectionAttempts = 5 := by
  exact ⟨by decide, by decide⟩

/-- Claim C3 evaluated on the source: after five consecutive closes with no
intervening open, the sixth close still schedules a reconnect (six scheduled
in all, one still pending), and no connection-failed notification is ever
surfaced in this run — the retry budget is never enforced and the claimed
RetryBudgetExhausted notification does not exist in this code path. -/
theorem C3_no_exhaustion_notification :
    (run initialState sixCloseRun).scheduledDelays.length = 6 ∧
    (run initialState sixCloseRun).pendingTimers ≠ [] ∧
    (run initialState sixCloseRun).toasts.countP
      (fun t => decide (t = Notification.connectionFailed)) = 0 ∧
    (run initialState sixCloseRun).isConnected = false := by
  exact ⟨by decide, by decide, by decide, by decide⟩

/-- Claim C4 counterexample: after one close has scheduled a reconnect,
`stop()` (`disconnectWebSocket`) leaves that pending reconnect timer
pending — contrary to the claim, it cancels nothing (the source never
stores the timeout handle). -/
theorem C4_counterexample :
    (disconnectWebSocket (run initialState [Ev.streamOn, Ev.closeEv])).pendingTimers =
      [(1000, { isStreaming := true, connectionAttempts := 0 })] ∧
    (disconnectWebSocket (run initialState [Ev.streamOn, Ev.closeEv])).pendingTimers ≠
      [] := by
  exact ⟨by decide, by decide⟩

/-- Claim C4 (amended): `stop()` is idempotent — calling it twice produces
exactly the same end state as calling it once, with the socket reference
cleared and the connection state Disconnected; however it does not cancel a
pending reconnect timer: the pending-timer list is left untouched. -/
theorem C4_stop_idempotent (s : ClientState) :
    disconnectWebSocket (disconnectWebSocket s) = disconnectWebSocket s ∧
    (disconnectWebSocket s).isConnected = false ∧
    (disconnectWebSocket s).socketEnv = none ∧
    (disconnectWebSocket s).pendingTimers = s.pendingTimers := by
  refine ⟨?_, rfl, rfl, rfl⟩
  cases s
  rfl

/-- Claim C5: a frame that fails to parse, or whose type tag is neither
signal nor connection, leaves the entire component state unchanged — the
connection state, the Signal Buffer, the retry state, the timers and the
toast log are all untouched, and the handler is a total function (the parse
failure is caught). -/
theorem C5_malformed_tolerance (s : ClientState) (tag : String) :
    onmessage WireMsg.malformed s = s ∧
    onmessage (WireMsg.otherTag tag) s = s ∧
    step s (Ev.msg WireMsg.malformed) = s ∧
    step s (Ev.msg (WireMsg.otherTag tag)) = s := by
  refine ⟨rfl, rfl, ?_, ?_⟩
  · cases s with
    | mk ic istr ca ls se pt sd ts => cases se <;> rfl
  · cases s with
    | mk ic istr ca ls se pt sd ts => cases se <;> rfl

/-- Claim C6 evaluated on the source: after three failed attempts the user
toggles streaming off and on (the new closure chain captures attempt count
3); the socket then opens successfully — the state becomes Connected and
the attempt-count cell does reset to 0 — but the next close schedules the
reconnect after 2^3 * 1000 ms = 8000 ms, not the claimed 2^0 = 1 s: the
delay is computed from the captured value, so the backoff schedule does not
restart after a successful open. -/
theorem C6_retry_reset_defeated :
    (run initialState (retryResetRun.take 10)).isConnected = true ∧
    (run initialState (retryResetRun.take 10)).connectionAttempts = 0 ∧
    (run initialState retryResetRun).scheduledDelays =
      [1000, 1000, 1000, 8000] := by
  exact ⟨by decide, by decide, by decide⟩

/-- Claim C7 counterexample: with streaming disabled the mounted status
query still issues its initial fetch (at 0 ms after mount) — the part of
the claim stating that no status fetch is issued while streaming is
disabled is false at mount. -/
theorem C7_counterexample :
    pollFetchTimes false 0 = [0] ∧ pollFetchTimes false 0 ≠ [] := by
  exact ⟨by decide, by decide⟩

/-- Claim C7 (amended): while streaming is enabled the poller fetches at
mount (time 0, not after an initial 30 s delay) and then every 30000 ms;
while streaming is disabled no polling timer is armed (`refetchInterval`
yields false), though the initial mount fetch is still issued. -/
theorem C7_poller_schedule (d : Option StreamingStatus) (k : Nat) :
    refetchIntervalFn true d = some 30000 ∧
    refetchIntervalFn false d = none ∧
    pollFetchTimes true k = (List.range (k + 1)).map (fun j => j * 30000) ∧
    (pollFetchTimes true k).head? = some 0 ∧
    pollFetchTimes false k = [0] := by
  refine ⟨?_, ?_, rfl, ?_, rfl⟩
  · cases d <;> simp [refetchIntervalFn, isActivelyStreamingProp]
  · cases d <;> simp [refetchIntervalFn, isActivelyStreamingProp]
  · show ((List.range (k + 1)).map (fun j => j * 30000)).head? = some 0
    rw [List.range_succ_eq_map]
    simp

/-- Claim C8: a WebSocket construction-time failure inside `start()` is
caught (the embedding of `connectWebSocket` is a total function, so nothing
propagates to the caller), the only effect is a connection-failed
notification appended to the same toast channel that runtime failures use
(`onerror` appends there too), the socket reference is not set, and the
client stays Disconnected; moreover the global constructor override turns
an invalid-URL construction into an inert closed mock rather than a thrown
error. -/
theorem C8_construction_failure (env : RenderEnv) (e : String)
    (s : ClientState) (h : s.isConnected = false) :
    connectWebSocket env (Except.error e) s =
      { s with toasts := s.toasts ++ [Notification.connectionFailed] } ∧
    (connectWebSocket env (Except.error e) s).isConnected = false ∧
    (connectWebSocket env (Except.error e) s).socketEnv = s.socketEnv ∧
    (∀ s' : ClientState,
      (onerror s').toasts = s'.toasts ++ [Notification.connectionError]) ∧
    overriddenWebSocketCtor false = CtorOutcome.mockClosed := by
  exact ⟨rfl, h, rfl, fun s' => rfl, rfl⟩

/-- Witness for C8 at a concrete construction failure in the initial
state. -/
theorem C8_witness :
    connectWebSocket { isStreaming := true, connectionAttempts := 0 }
        (Except.error ("unreachable endpoint")) initialState =
      { initialState with
        toasts := initialState.toasts ++ [Notification.connectionFailed] } ∧
    (connectWebSocket { isStreaming := true, connectionAttempts := 0 }
        (Except.error ("unreachable endpoint")) initialState).isConnected = false ∧
    (connectWebSocket { isStreaming := true, connectionAttempts := 0 }
        (Except.error ("unreachable endpoint")) initialState).socketEnv =
      initialState.socketEnv ∧
    (∀ s' : ClientState,
      (onerror s').toasts = s'.toasts ++ [Notification.connectionError]) ∧
    overriddenWebSocketCtor false = CtorOutcome.mockClosed :=
  C8_construction_failure { isStreaming := true, connectionAttempts := 0 }
    ("unreachable endpoint") initialState rfl

/-- Claim C9: `sendTestSignal` issues exactly one POST, with fixed symbol
BTCUSDT and direction buy exactly when the pseudo-random draw exceeds one
half (no direction argument exists in the source); whether the request
succeeds or fails, the only state effect is one transient toast — the
connection state, attempt count, Signal Buffer, socket reference and
pending timers are all unchanged. -/
theorem C9_send_test_signal (randGtHalf requestFails : Bool)
    (s : ClientState) :
    (sendTestSignal randGtHalf requestFails s).1 =
      [{ symbol := "BTCUSDT",
         signalType := if randGtHalf then Direction.buy else Direction.sell }] ∧
    (sendTestSignal randGtHalf requestFails s).1.length = 1 ∧
    (sendTestSignal randGtHalf requestFails s).2.isConnected = s.isConnected ∧
    (sendTestSignal randGtHalf requestFails s).2.connectionAttempts =
      s.connectionAttempts ∧
    (sendTestSignal randGtHalf requestFails s).2.liveSignals = s.liveSignals ∧
    (sendTestSignal randGtHalf requestFails s).2.socketEnv = s.socketEnv ∧
    (sendTestSignal randGtHalf requestFails s).2.pendingTimers =
      s.pendingTimers ∧
    (sendTestSignal randGtHalf requestFails s).2.toasts =
      s.toasts ++ [if requestFails then Notification.testSignalError
                   else Notification.testSignalSent] := by
  exact ⟨rfl, rfl, rfl, rfl, rfl, rfl, rfl, rfl⟩

/-- Claim C10: every subscription tier other than elite and pro (null,
basic, premium, anything unrecognised) maps to the no-access record, so
`hasAccess` is false for every feature and both limits are 0; and
`hasAccess` on adminAccess is false for every tier, elite and pro
included. -/
theorem C10_feature_gating (tier : Option String) (f : Feature)
    (h1 : tier ≠ some ("elite")) (h2 : tier ≠ some ("pro")) :
    getFeatureAccess tier = noneAccess ∧
    hasAccess tier f = false ∧
    noneAccess.maxTickers = 0 ∧
    noneAccess.maxSignalsPerMonth = 0 ∧
    (∀ t : Option String, hasAccess t Feature.adminAccess = false) := by
  have hg : getFeatureAccess tier = noneAccess := by
    unfold getFeatureAccess
    rw [if_neg h1, if_neg h2]
  refine ⟨hg, ?_, rfl, rfl, ?_⟩
  · unfold hasAccess
    rw [hg]
    cases f <;> rfl
  · intro t
    unfold hasAccess getFeatureAccess
    by_cases he : t = some ("elite")
    · rw [if_pos he]
      rfl
    · rw [if_neg he]
      by_cases hp : t = some ("pro")
      · rw [if_pos hp]
        rfl
      · rw [if_neg hp]
        rfl

/-- Witness for C10 at the concrete unrecognised tier basic and the feature
premiumSignals. -/
theorem C10_witness :
    getFeatureAccess (some ("basic")) = noneAccess ∧
    hasAccess (some ("basic")) Feature.premiumSignals = false ∧
    noneAccess.maxTickers = 0 ∧
    noneAccess.maxSignalsPerMonth = 0 ∧
    (∀ t : Option String, hasAccess t Feature.adminAccess = false) :=
  C10_feature_gating (some ("basic")) Feature.premiumSignals
    (by decide) (by decide)

end BitcoinFrontend
